import Mathlib

/-!
Verification of the Stellar-Evolution catalog pipeline.

Shallow embedding of the three core stages of the repository:

* `load_table` — the catalog loader of `src/crossmatch_gaia_sdss_debug.py`
  (row validation by numeric coercion of the RA/Dec columns);
* `run_crossmatch` — the radius-search cross-matcher of the same file, and
  `crossmatch` — the nearest-neighbour variant of `src/crossmatch_gaia_sdss.py`;
* `process_gaia_csv` — the feature deriver of `src/process_gaia_data.py`.

Pandas/numpy/astropy calls are modelled by their documented semantics:
cells are rationals, NaN, infinities or non-numeric strings; angular
separations are abstracted as a separation matrix (astropy's
`search_around_sky(c1, c2, r)` returns exactly the index pairs whose
great-circle separation is at most `r`), with the great-circle haversine
formula over ℝ used to instantiate concrete scenarios.
-/

/-- Decidable equality for `Except`, used to evaluate pipeline runs on
concrete inputs. -/
instance {ε σ : Type} [DecidableEq ε] [DecidableEq σ] : DecidableEq (Except ε σ) := fun a b =>
  match a, b with
  | .ok x, .ok y =>
    if h : x = y then .isTrue (by rw [h]) else .isFalse (by simp [h])
  | .error x, .error y =>
    if h : x = y then .isTrue (by rw [h]) else .isFalse (by simp [h])
  | .ok _, .error _ => .isFalse (by simp)
  | .error _, .ok _ => .isFalse (by simp)

/-! ## Feature deriver: `src/process_gaia_data.py` -/

/-- `classify_star` (lines 18–26): temperature-based sequence classification. -/
def classify_star (teff : ℚ) : String :=
  if teff < 4000 then "cool_star"
  else if teff < 6500 then "sun_like"
  else if teff < 10000 then "hot_star"
  else "very_hot_star"

/-- `estimate_mass_from_teff` (lines 28–43): rough mass estimate from Teff. -/
def estimate_mass_from_teff (teff : ℚ) : ℚ :=
  if teff < 4000 then 0.6
  else if teff < 5500 then 0.9
  else if teff < 7000 then 1.2
  else if teff < 10000 then 2.0
  else if teff < 15000 then 5.0
  else 10.0

/-- `estimate_evolution_probs` (lines 45–52): WD / NS / BH probabilities from mass. -/
def estimate_evolution_probs (mass : ℚ) : ℚ × ℚ × ℚ :=
  if mass < 8 then (0.98, 0.02, 0.0)
  else if mass < 20 then (0.10, 0.75, 0.15)
  else (0.00, 0.10, 0.90)

/-- One row of the raw Gaia CSV, restricted to the columns the deriver reads.
`none` models a NaN cell. -/
structure InputRow where
  teff_gspphot : Option ℚ
  phot_g_mean_mag : Option ℚ
  parallax : Option ℚ
deriving DecidableEq

/-- The raw Gaia CSV: which columns are present, and the rows. -/
structure GaiaTable where
  has_ra_col : Bool
  has_dec_col : Bool
  has_mag_col : Bool
  has_teff_col : Bool
  has_parallax_col : Bool
  rows : List InputRow
deriving DecidableEq

/-- One row of the processed output table (the rational-valued columns; the
log-scaled columns are real-valued observations defined on top of these). -/
structure FeatureRow where
  teff : ℚ
  mass_est : ℚ
  star_class : String
  distance_pc : Option ℚ
  phot_g_mean_mag : ℚ
  prob_white_dwarf : ℚ
  prob_neutron_star : ℚ
  prob_black_hole : ℚ
deriving DecidableEq

/-- Lines 68–70: when `teff_gspphot` is missing, a dummy column is filled with
`np.random.uniform(3500, 10000)` draws; `rand i` is the draw for row `i`. -/
def fill_teff (rand : ℕ → ℚ) (t : GaiaTable) : List InputRow :=
  if t.has_teff_col then t.rows
  else ((List.range t.rows.length).zip t.rows).map
    (fun p => { p.2 with teff_gspphot := some (rand p.1) })

/-- Lines 74–75: `dropna(subset=["teff_gspphot", "phot_g_mean_mag"])` followed
by the filter `teff_gspphot > 0`. -/
def clean_rows (rows : List InputRow) : List InputRow :=
  (rows.filter (fun r => r.teff_gspphot.isSome && r.phot_g_mean_mag.isSome)).filter
    (fun r => match r.teff_gspphot with
              | some q => decide (0 < q)
              | none => false)

/-- Lines 88–95: the `distance_pc` column. It exists only when a `parallax`
column is present; `parallax.replace(0, np.nan)` maps zero parallax to NaN,
and `1000.0 / parallax` gives the distance in parsec otherwise. -/
def distance_pc_of (has_parallax_col : Bool) (parallax : Option ℚ) : Option ℚ :=
  if has_parallax_col then
    match parallax with
    | none => none
    | some p => if p = 0 then none else some (1000 / p)
  else none

/-- Lines 80–104, per row: the derived rational-valued feature columns. -/
def derive_row (has_parallax_col : Bool) (r : InputRow) : FeatureRow :=
  let teff := r.teff_gspphot.getD 0
  let mass := estimate_mass_from_teff teff
  { teff := teff
    mass_est := mass
    star_class := classify_star teff
    distance_pc := distance_pc_of has_parallax_col r.parallax
    phot_g_mean_mag := r.phot_g_mean_mag.getD 0
    prob_white_dwarf := (estimate_evolution_probs mass).1
    prob_neutron_star := (estimate_evolution_probs mass).2.1
    prob_black_hole := (estimate_evolution_probs mass).2.2 }

/-- `process_gaia_csv` (lines 54–111): required-column check (`ValueError`),
dummy-teff fill, cleaning, and per-row feature derivation. -/
def process_gaia_csv (rand : ℕ → ℚ) (t : GaiaTable) : Except String (List FeatureRow) :=
  if t.has_ra_col = false then .error "Required column ra not found in Gaia CSV."
  else if t.has_dec_col = false then .error "Required column dec not found in Gaia CSV."
  else if t.has_mag_col = false then .error "Required column phot_g_mean_mag not found in Gaia CSV."
  else .ok ((clean_rows (fill_teff rand t)).map (derive_row t.has_parallax_col))

/-- Line 92: the `abs_mag_g` column, `phot_g_mean_mag - 5*np.log10(distance_pc/10)`.
`none` models a NaN entry: NaN distance propagates, and `np.log10` of a
non-positive argument is NaN or `-inf` (a non-finite magnitude). -/
noncomputable def abs_mag_g (has_parallax_col : Bool) (mag : ℚ) (parallax : Option ℚ) :
    Option ℝ :=
  if has_parallax_col then
    match distance_pc_of has_parallax_col parallax with
    | none => none
    | some d =>
      if 0 < (d : ℝ) / 10 then some ((mag : ℝ) - 5 * Real.logb 10 ((d : ℝ) / 10))
      else none
  else none

/-! ## Catalog loader: `load_table` in `src/crossmatch_gaia_sdss_debug.py` -/

/-- A cell of a coordinate column as `pd.read_csv` delivers it: a rational,
a signed infinity, NaN, or a leftover non-numeric string. -/
inductive Cell
  | num (q : ℚ)
  | posInf
  | negInf
  | nan
  | str (s : String)
deriving DecidableEq

/-- `pd.to_numeric(col, errors='coerce')`: numeric values (including the
infinities) pass through, anything non-numeric coerces to NaN. -/
def to_numeric_coerce : Cell → Cell
  | .num q => .num q
  | .posInf => .posInf
  | .negInf => .negInf
  | .nan => .nan
  | .str _ => .nan

/-- Pandas `notnull`: false exactly on NaN. In particular infinities are
not null. -/
def Cell.notnull : Cell → Bool
  | .nan => false
  | _ => true

/-- A value that is an actual (finite) number. -/
def Cell.isFinite : Cell → Bool
  | .num _ => true
  | _ => false

/-- `load_table` (lines 42–50), row-validation part: keep exactly the rows
whose RA and Dec cells survive `pd.to_numeric(..., errors='coerce').notnull()`.
A row is the pair of its RA and Dec cells. -/
def load_table (rows : List (Cell × Cell)) : List (Cell × Cell) :=
  rows.filter (fun r => (to_numeric_coerce r.1).notnull && (to_numeric_coerce r.2).notnull)

/-! ## Cross-matcher: `run_crossmatch` in `src/crossmatch_gaia_sdss_debug.py`

The geometry lives in astropy: the call `c_gaia.search_around_sky(c_sdss, r)`
at line 82 finds every pair of records whose great-circle separation is at
most `r`.  The matcher is therefore parametrised by the separation matrix
`sep` ( `sep i j` is the separation between record `i` of catalog A (Gaia)
and record `j` of catalog B (SDSS)); the concrete haversine separation
instantiates it below, and pairs are normalised as (A-index, B-index).

One astropy subtlety matters: the method form returns the indices into the
ARGUMENT catalog first and the indices into `self` second, so the code's
`idx_gaia` variable (bound to the first array) actually holds SDSS indices
and `idx_sdss` holds Gaia indices — the opposite of what the comments at
lines 78–85 assert.  Consequently `unique_gaia` at line 103, computed as
`df_matches[...].nunique()` over the first array, is the number of distinct
SDSS (B) indices, i.e. of distinct second components of the normalised
pairs. -/

/-- All index pairs of an `nA × nB` cross product. -/
def all_pairs (nA nB : ℕ) : List (ℕ × ℕ) :=
  ((List.range nA).map (fun i => (List.range nB).map (fun j => (i, j)))).flatten

/-- Astropy `search_around_sky`: every pair within separation `r`. -/
def search_around_sky {α : Type} [LinearOrder α] (sep : ℕ → ℕ → α) (nA nB : ℕ) (r : α) :
    List (ℕ × ℕ) :=
  (all_pairs nA nB).filter (fun p => decide (sep p.1 p.2 ≤ r))

/-- The number of distinct A (Gaia) indices in a pair list — the quantity
the spec's selection rule speaks about. -/
def unique_count (pairs : List (ℕ × ℕ)) : ℕ :=
  (pairs.map Prod.fst).dedup.length

/-- The code's `unique_gaia` (line 103): the distinct-value count of the
column built from the first array astropy returns, which by the
argument-first return order of `c_gaia.search_around_sky(c_sdss, r)` holds
SDSS indices — so this is the number of distinct B (SDSS) indices. -/
def unique_gaia (pairs : List (ℕ × ℕ)) : ℕ :=
  (pairs.map Prod.snd).dedup.length

/-- The loop state of the radius search (lines 67–69): best radius so far,
its `unique_gaia` count (in fact a distinct-SDSS count), and its pair
list. -/
structure MatchState (α : Type) where
  bestRadius : Option α
  bestCount : ℕ
  bestPairs : List (ℕ × ℕ)
deriving DecidableEq

/-- One iteration of the radius loop (lines 73–118): skip a radius with no
pairs, otherwise adopt it exactly when its `unique_gaia` count — the
distinct-SDSS count, by the astropy index order — strictly exceeds the best
so far. -/
def select_step {α : Type} [LinearOrder α] (sep : ℕ → ℕ → α) (nA nB : ℕ)
    (st : MatchState α) (r : α) : MatchState α :=
  let pairs := search_around_sky sep nA nB r
  if pairs.length = 0 then st
  else if st.bestCount < unique_gaia pairs then ⟨some r, unique_gaia pairs, pairs⟩
  else st

/-- The message of the `RuntimeError` raised at line 124. -/
def no_match_msg : String :=
  "No matches found between Gaia and SDSS. Check inputs, coordinate ranges and column names."

/-- `run_crossmatch` (lines 52–154) after loading: run the radius loop and
either fail (lines 120–124) or report the chosen radius, its `unique_gaia`
count and its pair list. -/
def run_crossmatch {α : Type} [LinearOrder α] (sep : ℕ → ℕ → α) (nA nB : ℕ)
    (radii : List α) : Except String (α × ℕ × List (ℕ × ℕ)) :=
  let st := radii.foldl (select_step sep nA nB) ⟨none, 0, []⟩
  match st.bestRadius with
  | none => .error no_match_msg
  | some r => if st.bestCount = 0 then .error no_match_msg else .ok (r, st.bestCount, st.bestPairs)

/-! ## Nearest-neighbour variant: `crossmatch` in `src/crossmatch_gaia_sdss.py` -/

/-- Astropy `match_to_catalog_sky` for one primary record: the index of the
closest secondary record (first minimiser of the separations `f` over
`0, …, nB-1`). -/
def match_to_catalog_sky {α : Type} [LinearOrder α] (f : ℕ → α) (nB : ℕ) : ℕ :=
  (List.range nB).foldl (fun best j => if f j < f best then j else best) 0

/-- `crossmatch` (lines 15–40): pair each Gaia record with its nearest SDSS
record, keeping the pair exactly when the separation is within `radius`. -/
def crossmatch {α : Type} [LinearOrder α] (sep : ℕ → ℕ → α) (nA nB : ℕ) (radius : α) :
    List (ℕ × ℕ) :=
  (List.range nA).filterMap (fun i =>
    if sep i (match_to_catalog_sky (sep i) nB) ≤ radius
    then some (i, match_to_catalog_sky (sep i) nB) else none)

/-! ## Sky geometry

The repository delegates angular separation to astropy.  The mathematical
content of that call is the great-circle separation of two points given by
(RA, Dec) in degrees, computed here by the haversine formula over ℝ and
reported in arc-seconds, which is what `search_around_sky` compares against
its `seplimit`. -/

/-- A sky position in degrees. -/
structure SkyPoint where
  ra : ℝ
  dec : ℝ

/-- Degrees to radians. -/
noncomputable def deg2rad (d : ℝ) : ℝ := d * Real.pi / 180

/-- Haversine great-circle separation (radians) of two points given in
radians. -/
noncomputable def hav_sep_rad (ra1 dec1 ra2 dec2 : ℝ) : ℝ :=
  2 * Real.arcsin (Real.sqrt
    (Real.sin ((dec2 - dec1) / 2) ^ 2 +
      Real.cos dec1 * Real.cos dec2 * Real.sin ((ra2 - ra1) / 2) ^ 2))

/-- Angular separation of two catalog records, in arc-seconds. -/
noncomputable def sep_arcsec (p q : SkyPoint) : ℝ :=
  hav_sep_rad (deg2rad p.ra) (deg2rad p.dec) (deg2rad q.ra) (deg2rad q.dec)
    * (180 / Real.pi) * 3600

/-- The separation matrix of two catalogs of sky points (out-of-range
indices read a dummy origin record, and never arise for in-range pairs). -/
noncomputable def cat_sep (A B : List SkyPoint) (i j : ℕ) : ℝ :=
  sep_arcsec (A.getD i ⟨0, 0⟩) (B.getD j ⟨0, 0⟩)

/-- The spec's scenario: a single-record primary catalog at
(RA=180.0, Dec=0.0). -/
noncomputable def scenario_gaia : List SkyPoint := [⟨180, 0⟩]

/-- The spec's scenario: a single-record secondary catalog at
(RA=180.0003, Dec=0.0). -/
noncomputable def scenario_sdss : List SkyPoint := [⟨180.0003, 0⟩]

/-! ## Concrete input tables used in scenarios -/

/-- A one-row Gaia table with all columns present and `parallax = 0`. -/
def tbl_parallax_zero : GaiaTable :=
  ⟨true, true, true, true, true, [⟨some 6000, some 12, some 0⟩]⟩

/-- A one-row Gaia table whose `teff_gspphot` column is missing. -/
def tbl_no_teff : GaiaTable :=
  ⟨true, true, true, false, false, [⟨none, some 12, none⟩]⟩

/-- A uniform draw stream that always returns 4000 K (a value
`np.random.uniform(3500, 10000)` can produce). -/
def draw_a : ℕ → ℚ := fun _ => 4000

/-- A uniform draw stream that always returns 9000 K (a value
`np.random.uniform(3500, 10000)` can produce). -/
def draw_b : ℕ → ℚ := fun _ => 9000

/-- Separation matrix (arc-seconds) of a two-record Gaia catalog against a
one-record SDSS catalog: Gaia record 0 coincides with the SDSS record and
Gaia record 1 lies 3 arc-seconds away from it. -/
def bug_sep : ℕ → ℕ → ℚ := fun i _ => if i = 0 then 0 else 3

/-! ## Helper lemmas -/

/-- The probability triple of every mass bucket sums to exactly 1. -/
lemma estimate_evolution_probs_sum (m : ℚ) :
    (estimate_evolution_probs m).1 + (estimate_evolution_probs m).2.1 +
      (estimate_evolution_probs m).2.2 = 1 := by
  unfold estimate_evolution_probs
  split_ifs <;> norm_num

/-- The mass estimate always lands in the six-step table. -/
lemma estimate_mass_from_teff_mem (t : ℚ) :
    estimate_mass_from_teff t ∈ ([0.6, 0.9, 1.2, 2, 5, 10] : List ℚ) := by
  unfold estimate_mass_from_teff
  split_ifs <;> norm_num

/-- The mass estimate is strictly positive. -/
lemma estimate_mass_from_teff_pos (t : ℚ) : 0 < estimate_mass_from_teff t := by
  unfold estimate_mass_from_teff
  split_ifs <;> norm_num

/-- The mass estimate is below 20 solar masses. -/
lemma estimate_mass_from_teff_lt_20 (t : ℚ) : estimate_mass_from_teff t < 20 := by
  unfold estimate_mass_from_teff
  split_ifs <;> norm_num

/-- Black-hole probability of an estimated mass never exceeds 0.15. -/
lemma prob_bh_of_mass_est_le (t : ℚ) :
    (estimate_evolution_probs (estimate_mass_from_teff t)).2.2 ≤ 0.15 := by
  have h := estimate_mass_from_teff_lt_20 t
  unfold estimate_evolution_probs
  split_ifs <;> norm_num

/-- Every row of a successful deriver run is the derivation of some input
row. -/
lemma process_gaia_csv_ok_mem {rand : ℕ → ℚ} {t : GaiaTable} {rows : List FeatureRow}
    (h : process_gaia_csv rand t = .ok rows) {fr : FeatureRow} (hfr : fr ∈ rows) :
    ∃ r : InputRow, fr = derive_row t.has_parallax_col r := by
  unfold process_gaia_csv at h
  split_ifs at h
  simp only [Except.ok.injEq] at h
  subst h
  rcases List.mem_map.1 hfr with ⟨r, _, rfl⟩
  exact ⟨r, rfl⟩

/-- In every derived row the mass estimate is the temperature step function
of the row's own `teff` column. -/
lemma derive_row_mass_est (hp : Bool) (r : InputRow) :
    (derive_row hp r).mass_est = estimate_mass_from_teff ((derive_row hp r).teff) := rfl

/-! ## Claim theorems: feature deriver -/

/-- C2: `estimate_evolution_probs` maps mass to the fixed probability
triples (mass < 8 ↦ (0.98, 0.02, 0.00), 8 ≤ mass < 20 ↦ (0.10, 0.75, 0.15),
mass ≥ 20 ↦ (0.00, 0.10, 0.90)); every record of the deriver's output has
probability fields summing to 1.0 within 1e-9; and mass 25 yields exactly
(0.00, 0.10, 0.90). -/
theorem C2_evolution_probs :
    (∀ m : ℚ, m < 8 → estimate_evolution_probs m = (0.98, 0.02, 0)) ∧
    (∀ m : ℚ, 8 ≤ m → m < 20 → estimate_evolution_probs m = (0.10, 0.75, 0.15)) ∧
    (∀ m : ℚ, 20 ≤ m → estimate_evolution_probs m = (0, 0.10, 0.90)) ∧
    (∀ (rand : ℕ → ℚ) (t : GaiaTable) (rows : List FeatureRow),
        process_gaia_csv rand t = .ok rows → ∀ fr ∈ rows,
        |fr.prob_white_dwarf + fr.prob_neutron_star + fr.prob_black_hole - 1|
          ≤ 1 / 1000000000) ∧
    estimate_evolution_probs 25 = (0, 0.10, 0.90) := by
  refine ⟨?_, ?_, ?_, ?_, ?_⟩
  · intro m hm
    unfold estimate_evolution_probs
    rw [if_pos hm]
    norm_num
  · intro m hm8 hm20
    unfold estimate_evolution_probs
    rw [if_neg (by linarith), if_pos hm20]
  · intro m hm
    unfold estimate_evolution_probs
    rw [if_neg (by linarith), if_neg (by linarith)]
    norm_num
  · intro rand t rows h fr hfr
    obtain ⟨r, rfl⟩ := process_gaia_csv_ok_mem h hfr
    have hsum := estimate_evolution_probs_sum
      (estimate_mass_from_teff (r.teff_gspphot.getD 0))
    have : (derive_row t.has_parallax_col r).prob_white_dwarf +
        (derive_row t.has_parallax_col r).prob_neutron_star +
        (derive_row t.has_parallax_col r).prob_black_hole = 1 := hsum
    rw [this]
    norm_num
  · norm_num [estimate_evolution_probs]

/-- C2 witness: the bucket equations, the tolerance bound and the mass-25
case instantiated at concrete inputs. -/
theorem C2_evolution_probs_witness :
    estimate_evolution_probs 1 = (0.98, 0.02, 0) ∧
    estimate_evolution_probs 10 = (0.10, 0.75, 0.15) ∧
    estimate_evolution_probs 25 = (0, 0.10, 0.90) ∧
    |(⟨6000, 1.2, "sun_like", none, 12, 0.98, 0.02, 0⟩ : FeatureRow).prob_white_dwarf +
        (⟨6000, 1.2, "sun_like", none, 12, 0.98, 0.02, 0⟩ : FeatureRow).prob_neutron_star +
        (⟨6000, 1.2, "sun_like", none, 12, 0.98, 0.02, 0⟩ : FeatureRow).prob_black_hole - 1|
      ≤ 1 / 1000000000 :=
  ⟨C2_evolution_probs.1 1 (by norm_num),
   C2_evolution_probs.2.1 10 (by norm_num) (by norm_num),
   C2_evolution_probs.2.2.1 25 (by norm_num),
   C2_evolution_probs.2.2.2.1 (fun _ => 0) tbl_parallax_zero
     [⟨6000, 1.2, "sun_like", none, 12, 0.98, 0.02, 0⟩]
     (by with_unfolding_all rfl) _ (List.mem_singleton.2 rfl)⟩

/-- C6: the mass estimate is the exact temperature step function with
breakpoints 4000/5500/7000/10000/15000 K mapping to
0.6/0.9/1.2/2.0/5.0/10.0 solar masses, and it is a pure function of the
temperature (equal inputs give equal outputs). -/
theorem C6_mass_step_function :
    (∀ t : ℚ, t < 4000 → estimate_mass_from_teff t = 0.6) ∧
    (∀ t : ℚ, 4000 ≤ t → t < 5500 → estimate_mass_from_teff t = 0.9) ∧
    (∀ t : ℚ, 5500 ≤ t → t < 7000 → estimate_mass_from_teff t = 1.2) ∧
    (∀ t : ℚ, 7000 ≤ t → t < 10000 → estimate_mass_from_teff t = 2.0) ∧
    (∀ t : ℚ, 10000 ≤ t → t < 15000 → estimate_mass_from_teff t = 5.0) ∧
    (∀ t : ℚ, 15000 ≤ t → estimate_mass_from_teff t = 10.0) ∧
    (∀ t₁ t₂ : ℚ, t₁ = t₂ →
        estimate_mass_from_teff t₁ = estimate_mass_from_teff t₂) := by
  refine ⟨?_, ?_, ?_, ?_, ?_, ?_, fun t₁ t₂ h => by rw [h]⟩ <;>
    (intro t
     unfold estimate_mass_from_teff) <;>
    (intros; split_ifs <;> first | rfl | linarith)

/-- C6 witness: one concrete temperature in each bucket. -/
theorem C6_mass_step_function_witness :
    estimate_mass_from_teff 3000 = 0.6 ∧
    estimate_mass_from_teff 5000 = 0.9 ∧
    estimate_mass_from_teff 6000 = 1.2 ∧
    estimate_mass_from_teff 9000 = 2.0 ∧
    estimate_mass_from_teff 12000 = 5.0 ∧
    estimate_mass_from_teff 20000 = 10.0 ∧
    estimate_mass_from_teff 5777 = estimate_mass_from_teff 5777 :=
  ⟨C6_mass_step_function.1 3000 (by norm_num),
   C6_mass_step_function.2.1 5000 (by norm_num) (by norm_num),
   C6_mass_step_function.2.2.1 6000 (by norm_num) (by norm_num),
   C6_mass_step_function.2.2.2.1 9000 (by norm_num) (by norm_num),
   C6_mass_step_function.2.2.2.2.1 12000 (by norm_num) (by norm_num),
   C6_mass_step_function.2.2.2.2.2.1 20000 (by norm_num),
   C6_mass_step_function.2.2.2.2.2.2 5777 5777 rfl⟩

/-- C9: in the Gaia deriver, every output row's mass estimate is computed by
the temperature step function (never read from a mass column), hence lies in
{0.6, 0.9, 1.2, 2, 5, 10}, is strictly positive (so `log_mass` is defined
without clamping), stays below 20 solar masses (the ≥ 20 probability bucket
is unreachable), and the black-hole probability never exceeds 0.15. -/
theorem C9_mass_est_invariants :
    ∀ (rand : ℕ → ℚ) (t : GaiaTable) (rows : List FeatureRow),
      process_gaia_csv rand t = .ok rows → ∀ fr ∈ rows,
        fr.mass_est = estimate_mass_from_teff fr.teff ∧
        fr.mass_est ∈ ([0.6, 0.9, 1.2, 2, 5, 10] : List ℚ) ∧
        0 < fr.mass_est ∧ fr.mass_est < 20 ∧
        fr.prob_black_hole ≤ 0.15 := by
  intro rand t rows h fr hfr
  obtain ⟨r, rfl⟩ := process_gaia_csv_ok_mem h hfr
  exact ⟨derive_row_mass_est t.has_parallax_col r,
    estimate_mass_from_teff_mem _,
    estimate_mass_from_teff_pos _,
    estimate_mass_from_teff_lt_20 _,
    prob_bh_of_mass_est_le _⟩

/-- C9 witness: the invariants hold on the row produced by a concrete run. -/
theorem C9_mass_est_invariants_witness :
    (⟨6000, 1.2, "sun_like", none, 12, 0.98, 0.02, 0⟩ : FeatureRow).mass_est =
        estimate_mass_from_teff
          (⟨6000, 1.2, "sun_like", none, 12, 0.98, 0.02, 0⟩ : FeatureRow).teff ∧
    (⟨6000, 1.2, "sun_like", none, 12, 0.98, 0.02, 0⟩ : FeatureRow).mass_est ∈
        ([0.6, 0.9, 1.2, 2, 5, 10] : List ℚ) ∧
    0 < (⟨6000, 1.2, "sun_like", none, 12, 0.98, 0.02, 0⟩ : FeatureRow).mass_est ∧
    (⟨6000, 1.2, "sun_like", none, 12, 0.98, 0.02, 0⟩ : FeatureRow).mass_est < 20 ∧
    (⟨6000, 1.2, "sun_like", none, 12, 0.98, 0.02, 0⟩ : FeatureRow).prob_black_hole ≤ 0.15 :=
  C9_mass_est_invariants (fun _ => 0) tbl_parallax_zero
    [⟨6000, 1.2, "sun_like", none, 12, 0.98, 0.02, 0⟩]
    (by with_unfolding_all rfl) _ (List.mem_singleton.2 rfl)

/-! ## Claim theorems: loader and determinism -/

/-- C3: the loader's validation mask is `pd.to_numeric(..).notnull()`, which
drops rows whose coordinates fail numeric coercion (the NaN row below), but
pandas `notnull` is true on infinities, so a row with RA = +inf — a
non-finite coordinate — survives into the loader's output, contradicting the
claimed invariant. -/
theorem C3_loader_keeps_infinite_ra :
    load_table [(.posInf, .num 0), (.nan, .num 1), (.str "abc", .num 2), (.num 2, .num 3)] =
      [(.posInf, .num 0), (.num 2, .num 3)] ∧
    Cell.isFinite .posInf = false := by
  constructor
  · rfl
  · rfl

/-- C5 counterexample: on an input table lacking the `teff_gspphot` column
the deriver fills the column from `np.random.uniform(3500, 10000)`, so two
runs on the same input with different (in-range) draws produce different
outputs — the stage is not deterministic there. -/
theorem C5_deriver_random_counterexample :
    process_gaia_csv draw_a tbl_no_teff ≠ process_gaia_csv draw_b tbl_no_teff ∧
    (∀ i : ℕ, 3500 ≤ draw_a i ∧ draw_a i ≤ 10000) ∧
    (∀ i : ℕ, 3500 ≤ draw_b i ∧ draw_b i ≤ 10000) := by
  refine ⟨?_, fun i => by norm_num [draw_a], fun i => by norm_num [draw_b]⟩
  have ha : process_gaia_csv draw_a tbl_no_teff =
      .ok [⟨4000, 0.9, "sun_like", none, 12, 0.98, 0.02, 0⟩] := by
    with_unfolding_all rfl
  have hb : process_gaia_csv draw_b tbl_no_teff =
      .ok [⟨9000, 2.0, "hot_star", none, 12, 0.98, 0.02, 0⟩] := by
    with_unfolding_all rfl
  rw [ha, hb]
  intro h
  simp only [Except.ok.injEq, List.cons.injEq] at h
  have := congrArg FeatureRow.teff h.1
  norm_num at this

/-- C5 amended: the loader and cross-matcher are pure functions of their
inputs, and the feature deriver is deterministic on every input that has a
`teff_gspphot` column — its output does not depend on the random stream;
only inputs lacking that column are re-randomised per run. -/
theorem C5_deriver_deterministic_with_teff (t : GaiaTable) (r1 r2 : ℕ → ℚ)
    (h : t.has_teff_col = true) :
    process_gaia_csv r1 t = process_gaia_csv r2 t := by
  unfold process_gaia_csv fill_teff
  rw [h]
  simp

/-- C5 witness: two different draw streams give identical output on a table
that has the `teff_gspphot` column. -/
theorem C5_deriver_deterministic_witness :
    process_gaia_csv (fun _ => 3500) tbl_parallax_zero =
      process_gaia_csv (fun _ => 9999) tbl_parallax_zero :=
  C5_deriver_deterministic_with_teff tbl_parallax_zero (fun _ => 3500) (fun _ => 9999) rfl

/-- C7: the absolute magnitude column follows
`abs_mag_g = phot_g_mean_mag - 5*log10(distance_pc/10)` with
`distance_pc = 1000/parallax` for positive parallax; a zero parallax is
replaced by NaN, producing a null distance and null magnitude rather than a
divide-by-zero error; without a parallax column the magnitude column is
null; and a concrete run over a zero-parallax record completes normally. -/
theorem C7_abs_mag_zero_parallax :
    (∀ mag : ℚ, abs_mag_g true mag (some 0) = none ∧ distance_pc_of true (some 0) = none) ∧
    (∀ mag p : ℚ, 0 < p →
        distance_pc_of true (some p) = some (1000 / p) ∧
        abs_mag_g true mag (some p) =
          some ((mag : ℝ) - 5 * Real.logb 10 (((1000 / p : ℚ) : ℝ) / 10))) ∧
    (∀ (mag : ℚ) (parallax : Option ℚ), abs_mag_g false mag parallax = none) ∧
    process_gaia_csv (fun _ => 0) tbl_parallax_zero =
      .ok [⟨6000, 1.2, "sun_like", none, 12, 0.98, 0.02, 0⟩] := by
  refine ⟨?_, ?_, ?_, by with_unfolding_all rfl⟩
  · intro mag
    constructor
    · unfold abs_mag_g distance_pc_of
      simp
    · unfold distance_pc_of
      simp
  · intro mag p hp
    have hne : ¬ p = 0 := hp.ne'
    have hdist : distance_pc_of true (some p) = some (1000 / p) := by
      unfold distance_pc_of
      simp [hne]
    refine ⟨hdist, ?_⟩
    unfold abs_mag_g
    rw [hdist]
    have hpos : 0 < ((1000 / p : ℚ) : ℝ) / 10 := by
      have : (0 : ℚ) < 1000 / p := by positivity
      have : (0 : ℝ) < ((1000 / p : ℚ) : ℝ) := by exact_mod_cast this
      linarith
    simp only [if_pos hpos, if_true]
  · intro mag parallax
    unfold abs_mag_g
    simp

/-- C7 witness: the formula at parallax 1 mas, and null at parallax 0. -/
theorem C7_abs_mag_zero_parallax_witness :
    abs_mag_g true 10 (some 1) =
      some ((10 : ℝ) - 5 * Real.logb 10 (((1000 / 1 : ℚ) : ℝ) / 10)) ∧
    abs_mag_g true 10 (some 0) = none :=
  ⟨(C7_abs_mag_zero_parallax.2.1 10 1 (by norm_num)).2,
   (C7_abs_mag_zero_parallax.1 10).1⟩

/-! ## Helper lemmas: cross-matcher -/

/-- A pair list has no distinct A-indices exactly when it is empty. -/
lemma unique_count_eq_zero {pairs : List (ℕ × ℕ)} :
    unique_count pairs = 0 ↔ pairs = [] := by
  unfold unique_count
  rw [List.length_eq_zero, List.dedup_eq_nil, List.map_eq_nil_iff]

/-- A radius whose pair search is empty leaves the loop state unchanged. -/
lemma select_step_of_empty {α : Type} [LinearOrder α] (sep : ℕ → ℕ → α) (nA nB : ℕ)
    (st : MatchState α) (r : α) (h : search_around_sky sep nA nB r = []) :
    select_step sep nA nB st r = st := by
  unfold select_step
  rw [h]
  rfl

/-- If every candidate radius yields an empty pair search, the whole loop
leaves the initial state unchanged. -/
lemma foldl_select_all_empty {α : Type} [LinearOrder α] (sep : ℕ → ℕ → α) (nA nB : ℕ)
    (st : MatchState α) :
    ∀ radii : List α, (∀ r ∈ radii, search_around_sky sep nA nB r = []) →
      radii.foldl (select_step sep nA nB) st = st
  | [], _ => rfl
  | r :: rs, h => by
    rw [List.foldl_cons, select_step_of_empty sep nA nB st r (h r (List.mem_cons_self r rs))]
    exact foldl_select_all_empty sep nA nB st rs (fun r' hr' => h r' (List.mem_cons_of_mem r hr'))

/-! ## Claim theorems: cross-matcher error path and monotonicity -/

/-- C4 counterexample: when every radius yields zero pairs, the failure
value is the fixed-message `RuntimeError` of line 124.  Two runs whose
per-radius diagnostics differ (one and two candidate radii respectively)
produce the identical error value, so the error carries no per-radius
counts; the counts are only printed. -/
theorem C4_error_value_carries_no_counts :
    run_crossmatch (fun _ _ => (10 : ℚ)) 1 1 [1] = .error no_match_msg ∧
    run_crossmatch (fun _ _ => (10 : ℚ)) 1 1 [1, 2] = .error no_match_msg := by
  constructor
  · with_unfolding_all rfl
  · with_unfolding_all rfl

/-- C4 amended: if every candidate radius yields zero pairs, the operation
fails with the `RuntimeError` whose payload is the fixed diagnostic message
(the per-radius pair counts are printed, not carried by the error). -/
theorem C4_all_empty_error {α : Type} [LinearOrder α] (sep : ℕ → ℕ → α) (nA nB : ℕ)
    (radii : List α) (h : ∀ r ∈ radii, search_around_sky sep nA nB r = []) :
    run_crossmatch sep nA nB radii = .error no_match_msg := by
  simp only [run_crossmatch]
  rw [foldl_select_all_empty sep nA nB ⟨none, 0, []⟩ radii h]

/-- C4 witness: the amended failure law at a concrete all-empty input. -/
theorem C4_all_empty_error_witness :
    run_crossmatch (fun _ _ => (7 : ℚ)) 1 1 [3] = .error no_match_msg :=
  C4_all_empty_error (fun _ _ => (7 : ℚ)) 1 1 [3] (by
    intro r hr
    rw [List.mem_singleton.1 hr]
    with_unfolding_all rfl)

/-- C8: for fixed catalogs, a smaller radius's pair set is contained in a
larger radius's pair set, and the pair count never decreases as the radius
increases. -/
theorem C8_radius_monotone {α : Type} [LinearOrder α] (sep : ℕ → ℕ → α) (nA nB : ℕ)
    (r1 r2 : α) (h : r1 ≤ r2) :
    (∀ p ∈ search_around_sky sep nA nB r1, p ∈ search_around_sky sep nA nB r2) ∧
    (search_around_sky sep nA nB r1).length ≤ (search_around_sky sep nA nB r2).length := by
  have hsub : (search_around_sky sep nA nB r1).Sublist (search_around_sky sep nA nB r2) := by
    unfold search_around_sky
    refine List.monotone_filter_right _ (fun p hp => ?_)
    simp only [decide_eq_true_eq] at hp ⊢
    exact le_trans hp h
  exact ⟨fun p hp => hsub.subset hp, hsub.length_le⟩

/-- C8 witness: subset and count monotonicity at concrete radii 1 ≤ 3. -/
theorem C8_radius_monotone_witness :
    (∀ p ∈ search_around_sky (fun i j => (i * j : ℚ)) 2 2 1,
        p ∈ search_around_sky (fun i j => (i * j : ℚ)) 2 2 3) ∧
    (search_around_sky (fun i j => (i * j : ℚ)) 2 2 1).length ≤
      (search_around_sky (fun i j => (i * j : ℚ)) 2 2 3).length :=
  C8_radius_monotone (fun i j => (i * j : ℚ)) 2 2 1 3 (by norm_num)

/-! ## Helper lemmas: scenario geometry -/

/-- The two scenario records are exactly 1.08 arc-seconds apart: both lie on
the equator, so the haversine separation reduces to the RA difference of
0.0003 degrees, i.e. 1.08 arc-seconds. -/
lemma scenario_sep_eq : sep_arcsec ⟨180, 0⟩ ⟨180.0003, 0⟩ = 1.08 := by
  have hpi := Real.pi_pos
  unfold sep_arcsec hav_sep_rad deg2rad
  dsimp only
  have hx : ((180.0003 : ℝ) * Real.pi / 180 - 180 * Real.pi / 180) / 2 =
      Real.pi / 1200000 := by
    ring_nf
  have h0 : (0 : ℝ) * Real.pi / 180 = 0 := by ring
  rw [h0]
  rw [show ((0 : ℝ) - 0) / 2 = 0 by ring, Real.sin_zero, Real.cos_zero, hx]
  rw [show (0 : ℝ) ^ 2 + 1 * 1 * Real.sin (Real.pi / 1200000) ^ 2 =
      Real.sin (Real.pi / 1200000) ^ 2 by ring]
  rw [Real.sqrt_sq (Real.sin_nonneg_of_nonneg_of_le_pi (by positivity) (by linarith))]
  rw [Real.arcsin_sin (by linarith) (by linarith)]
  field_simp
  ring_nf

/-- The scenario separation matrix at the only index pair. -/
lemma scenario_cat_sep : cat_sep scenario_gaia scenario_sdss 0 0 = 1.08 := by
  unfold cat_sep scenario_gaia scenario_sdss
  simp only [List.getD_cons_zero]
  exact scenario_sep_eq

/-- The scenario pair search: the single pair appears exactly when the
radius reaches 1.08 arc-seconds. -/
lemma scenario_search (rr : ℝ) :
    search_around_sky (cat_sep scenario_gaia scenario_sdss) 1 1 rr =
      if (1.08 : ℝ) ≤ rr then [(0, 0)] else [] := by
  unfold search_around_sky
  rw [show all_pairs 1 1 = [(0, 0)] from rfl]
  simp only [List.filter_cons, List.filter_nil]
  rw [scenario_cat_sep]
  by_cases h : (1.08 : ℝ) ≤ rr
  · rw [if_pos h, if_pos (decide_eq_true h)]
  · rw [if_neg h, if_neg (by rw [decide_eq_false h]; exact Bool.false_ne_true)]

/-- The scenario cross-match run: radius 1 finds nothing, radius 2 wins with
the single pair, radius 5 ties and is not adopted. -/
lemma scenario_run :
    run_crossmatch (cat_sep scenario_gaia scenario_sdss) 1 1 [1, 2, 5] =
      .ok (2, 1, [(0, 0)]) := by
  have h1 : search_around_sky (cat_sep scenario_gaia scenario_sdss) 1 1 (1 : ℝ) = [] := by
    rw [scenario_search]
    norm_num
  have h2 : search_around_sky (cat_sep scenario_gaia scenario_sdss) 1 1 (2 : ℝ) =
      [(0, 0)] := by
    rw [scenario_search]
    norm_num
  have h5 : search_around_sky (cat_sep scenario_gaia scenario_sdss) 1 1 (5 : ℝ) =
      [(0, 0)] := by
    rw [scenario_search]
    norm_num
  have s1 : select_step (cat_sep scenario_gaia scenario_sdss) 1 1 ⟨none, 0, []⟩ (1 : ℝ) =
      ⟨none, 0, []⟩ := by
    simp [select_step, h1]
  have s2 : select_step (cat_sep scenario_gaia scenario_sdss) 1 1 ⟨none, 0, []⟩ (2 : ℝ) =
      ⟨some 2, 1, [(0, 0)]⟩ := by
    simp [select_step, h2, unique_gaia]
  have s5 : select_step (cat_sep scenario_gaia scenario_sdss) 1 1
      ⟨some 2, 1, [(0, 0)]⟩ (5 : ℝ) = ⟨some 2, 1, [(0, 0)]⟩ := by
    simp [select_step, h5, unique_gaia]
  simp only [run_crossmatch, List.foldl_cons, List.foldl_nil, s1, s2, s5]
  norm_num

/-! ## Claim theorem: radius selection -/

/-- C1: the claimed selection rule — maximise distinct A (Gaia) indices —
fails on the code.  Because `c_gaia.search_around_sky(c_sdss, r)` returns
the indices into the argument catalog first, the code's `unique_gaia`
(line 103) counts distinct SDSS indices, and the adoption test at line 115
therefore maximises distinct B-indices, contrary to the claim and to the
code's own comments and variable names.  On `bug_sep` — two Gaia records at
0 and 3 arc-seconds from a single SDSS record — with radii [1, 5], radius 5
pairs both Gaia records (two distinct A-indices, versus one at radius 1),
yet the program keeps radius 1 and reports count 1, because the
distinct-SDSS count is 1 at both radii.  The swap-invariant 1×1 scenario of
the claim still holds: two single-record catalogs 1.08 arc-seconds apart
with radii [1, 2, 5] select radius 2.0 with one unique match. -/
theorem C1_selection_counts_sdss_not_gaia :
    run_crossmatch bug_sep 2 1 [1, 5] = .ok (1, 1, [(0, 0)]) ∧
    unique_count (search_around_sky bug_sep 2 1 1) = 1 ∧
    unique_count (search_around_sky bug_sep 2 1 5) = 2 ∧
    unique_gaia (search_around_sky bug_sep 2 1 1) = 1 ∧
    unique_gaia (search_around_sky bug_sep 2 1 5) = 1 ∧
    sep_arcsec ⟨180, 0⟩ ⟨180.0003, 0⟩ = 1.08 ∧
    run_crossmatch (cat_sep scenario_gaia scenario_sdss) 1 1 [1, 2, 5] =
      .ok (2, 1, [(0, 0)]) := by
  refine ⟨?_, ?_, ?_, ?_, ?_, scenario_sep_eq, scenario_run⟩
  · with_unfolding_all rfl
  · with_unfolding_all rfl
  · with_unfolding_all rfl
  · with_unfolding_all rfl
  · with_unfolding_all rfl

/-! ## Helper lemmas: nearest-neighbour matcher -/

/-- The running minimum of the nearest-neighbour fold is no farther than the
start index and than every scanned index. -/
lemma foldl_min_le {α : Type} [LinearOrder α] (f : ℕ → α) :
    ∀ (l : List ℕ) (b : ℕ),
      f (l.foldl (fun best j => if f j < f best then j else best) b) ≤ f b ∧
      ∀ j ∈ l, f (l.foldl (fun best j => if f j < f best then j else best) b) ≤ f j
  | [], b => ⟨le_refl _, by simp⟩
  | a :: l, b => by
    have ih := foldl_min_le f l (if f a < f b then a else b)
    rw [List.foldl_cons]
    refine ⟨le_trans ih.1 ?_, ?_⟩
    · split_ifs with h
      · exact h.le
      · exact le_refl _
    · intro j hj
      rcases List.mem_cons.1 hj with rfl | hj'
      · refine le_trans ih.1 ?_
        split_ifs with h
        · exact le_refl _
        · exact not_lt.1 h
      · exact ih.2 j hj'

/-- The nearest-neighbour fold returns either its start index or a scanned
index. -/
lemma foldl_min_mem {α : Type} [LinearOrder α] (f : ℕ → α) :
    ∀ (l : List ℕ) (b : ℕ),
      l.foldl (fun best j => if f j < f best then j else best) b = b ∨
        l.foldl (fun best j => if f j < f best then j else best) b ∈ l
  | [], _ => Or.inl rfl
  | a :: l, b => by
    rw [List.foldl_cons]
    rcases foldl_min_mem f l (if f a < f b then a else b) with h | h
    · rw [h]
      split_ifs with hc
      · exact Or.inr (List.mem_cons_self a l)
      · exact Or.inl rfl
    · exact Or.inr (List.mem_cons_of_mem a h)

/-- For a nonempty secondary catalog the nearest index is a valid index. -/
lemma match_to_catalog_sky_lt {α : Type} [LinearOrder α] (f : ℕ → α) (nB : ℕ)
    (h : 0 < nB) : match_to_catalog_sky f nB < nB := by
  unfold match_to_catalog_sky
  rcases foldl_min_mem f (List.range nB) 0 with h' | h'
  · rw [h']
    exact h
  · exact List.mem_range.1 h'

/-- The nearest index minimises the separation over the whole secondary
catalog. -/
lemma match_to_catalog_sky_min {α : Type} [LinearOrder α] (f : ℕ → α) (nB : ℕ)
    (j : ℕ) (hj : j < nB) : f (match_to_catalog_sky f nB) ≤ f j :=
  (foldl_min_le f (List.range nB) 0).2 j (List.mem_range.2 hj)

/-- `filterMap` by a function tagging each source index keeps first
components distinct. -/
lemma filterMap_fst_nodup {β : Type} (g : ℕ → Option (ℕ × β))
    (hg : ∀ i p, g i = some p → p.1 = i) :
    ∀ l : List ℕ, l.Nodup → ((l.filterMap g).map Prod.fst).Nodup
  | [], _ => by simp
  | a :: l, h => by
    have htl := filterMap_fst_nodup g hg l (List.nodup_cons.1 h).2
    rcases hga : g a with _ | p
    · simpa [List.filterMap_cons, hga] using htl
    · simp only [List.filterMap_cons, hga, List.map_cons]
      refine List.nodup_cons.2 ⟨?_, htl⟩
      intro hmem
      rcases List.mem_map.1 hmem with ⟨q, hq, hq1⟩
      rcases List.mem_filterMap.1 hq with ⟨i, hi, hgi⟩
      have hqi : q.1 = i := hg i q hgi
      have hpa : p.1 = a := hg a p hga
      have hia : i = a := (hqi.symm.trans hq1).trans hpa
      rw [hia] at hi
      exact (List.nodup_cons.1 h).1 hi

/-! ## Claim theorem: nearest-neighbour cross-match -/

/-- C10: the simple cross-match pairs each Gaia record with at most one SDSS
record — its nearest one — and keeps the pair only when that nearest
separation is within the radius, so output rows never exceed Gaia rows, no
Gaia index repeats, and every emitted pair is the nearest-neighbour pair. -/
theorem C10_nearest_neighbour {α : Type} [LinearOrder α] (sep : ℕ → ℕ → α)
    (nA nB : ℕ) (radius : α) (hB : 0 < nB) :
    (crossmatch sep nA nB radius).length ≤ nA ∧
    ((crossmatch sep nA nB radius).map Prod.fst).Nodup ∧
    (∀ p ∈ crossmatch sep nA nB radius,
      p.1 < nA ∧ p.2 < nB ∧
      p.2 = match_to_catalog_sky (sep p.1) nB ∧
      sep p.1 p.2 ≤ radius ∧
      ∀ j, j < nB → sep p.1 p.2 ≤ sep p.1 j) := by
  refine ⟨?_, ?_, ?_⟩
  · calc (crossmatch sep nA nB radius).length ≤ (List.range nA).length :=
          List.length_filterMap_le _ _
      _ = nA := List.length_range nA
  · refine filterMap_fst_nodup _ ?_ (List.range nA) (List.nodup_range nA)
    intro i p hp
    by_cases hc : sep i (match_to_catalog_sky (sep i) nB) ≤ radius
    · rw [if_pos hc] at hp
      cases hp
      rfl
    · rw [if_neg hc] at hp
      exact Option.noConfusion hp
  · intro p hp
    rcases List.mem_filterMap.1 hp with ⟨i, hi, hgi⟩
    by_cases hc : sep i (match_to_catalog_sky (sep i) nB) ≤ radius
    · rw [if_pos hc] at hgi
      cases hgi
      exact ⟨List.mem_range.1 hi, match_to_catalog_sky_lt _ _ hB, rfl, hc,
        fun j hj => match_to_catalog_sky_min (sep i) nB j hj⟩
    · rw [if_neg hc] at hgi
      exact Option.noConfusion hgi

/-- C10 witness: the nearest-neighbour properties on a concrete 2×2 run. -/
theorem C10_nearest_neighbour_witness :
    (crossmatch (fun i j : ℕ => (i + j : ℚ)) 2 2 1).length ≤ 2 ∧
    ((crossmatch (fun i j : ℕ => (i + j : ℚ)) 2 2 1).map Prod.fst).Nodup ∧
    (∀ p ∈ crossmatch (fun i j : ℕ => (i + j : ℚ)) 2 2 1,
      p.1 < 2 ∧ p.2 < 2 ∧
      p.2 = match_to_catalog_sky ((fun i j : ℕ => (i + j : ℚ)) p.1) 2 ∧
      (fun i j : ℕ => (i + j : ℚ)) p.1 p.2 ≤ 1 ∧
      ∀ j, j < 2 → (fun i j : ℕ => (i + j : ℚ)) p.1 p.2 ≤ (fun i j : ℕ => (i + j : ℚ)) p.1 j) :=
  C10_nearest_neighbour (fun i j : ℕ => (i + j : ℚ)) 2 2 1 (by norm_num)
